import Mathlib

/-!
Shallow embedding of src/timescaledb_util.py (class TimeScaleDBUtil), the
storage utility of the crypto_portfolio_bot repository, together with the
semantics of the SQL statements it issues and of the pandas calls it
delegates to.  A database is modeled as an association list from physical
table name to row list (one map per table family, since the derived names of
the two families never coincide for the identities the API constructs), plus
the list of database-level type names.  Decimal column values are modeled as
exact rationals; how a value crossed the store boundary is recorded by a
transport tag, so that the text-transport discipline of the read paths can be
stated and checked.  Raised Python or storage-engine exceptions are modeled
as error results of an Except value.
-/

set_option autoImplicit false

namespace TimeScaleDBUtil

/-- Decimal column values (SQL NUMERIC, Python Decimal) are exact rationals. -/
abbrev Dec := ℚ

/-- How a column value crossed the store boundary on a read:  as text (the
column was listed with dtype str in the read call, the lossless path) or via
the default transport of the engine (binary floating point per the spec). -/
inductive Transport where
  | text
  | raw
deriving DecidableEq

/-- A cell of a fetched data frame.  str is a string-typed cell holding the
text encoding of the stored value, rawNum a cell that arrived through the
default numeric transport, and dec a Python Decimal obtained by decoding a
cell that arrived via the recorded transport. -/
inductive Cell where
  | str (v : Dec)
  | rawNum (v : Dec)
  | dec (t : Transport) (v : Dec)
deriving DecidableEq

/-- The Python Decimal constructor applied to a fetched cell. -/
def toDecimal : Cell → Cell
  | .str v => .dec .text v
  | .rawNum v => .dec .raw v
  | .dec t v => .dec t v

/-- The side enumeration (CREATE TYPE enum_side AS ENUM, line 40). -/
inductive Side where
  | buy
  | sell
deriving DecidableEq

/-- A stored row of a trade table (column set of the CREATE TABLE at
line 115).  datetime is a timestamp modeled as an integer. -/
structure TradeRow where
  datetime : Int
  id : Option String
  side : Side
  liquidation : Bool
  price : Dec
  volume : Dec
  dollar_volume : Dec
  dollar_cumsum : Dec
  dollar_buy_cumsum : Dec
  dollar_sell_cumsum : Dec
deriving DecidableEq

/-- A fetched and possibly decoded trade record, as returned to the caller. -/
structure TradeRecord where
  datetime : Int
  id : Option String
  side : Side
  liquidation : Bool
  price : Cell
  volume : Cell
  dollar_volume : Cell
  dollar_cumsum : Cell
  dollar_buy_cumsum : Cell
  dollar_sell_cumsum : Cell
deriving DecidableEq

/-- A stored row of a dollar-bar or time-bar table (column set of the CREATE
TABLE statements at lines 179 and 234; both families share one shape).  The
open column is named open_ because open is a reserved word here. -/
structure BarRow where
  datetime : Int
  datetime_from : Int
  id : Option String
  id_from : Option String
  open_ : Dec
  high : Dec
  low : Dec
  close : Dec
  volume : Dec
  dollar_volume : Dec
  dollar_buy_volume : Dec
  dollar_sell_volume : Dec
  dollar_liquidation_volume : Dec
  dollar_liquidation_buy_volume : Dec
  dollar_liquidation_sell_volume : Dec
  dollar_cumsum : Dec
  dollar_buy_cumsum : Dec
  dollar_sell_cumsum : Dec
deriving DecidableEq

/-- A fetched and possibly decoded bar record, as returned to the caller. -/
structure BarRecord where
  datetime : Int
  datetime_from : Int
  id : Option String
  id_from : Option String
  open_ : Cell
  high : Cell
  low : Cell
  close : Cell
  volume : Cell
  dollar_volume : Cell
  dollar_buy_volume : Cell
  dollar_sell_volume : Cell
  dollar_liquidation_volume : Cell
  dollar_liquidation_buy_volume : Cell
  dollar_liquidation_sell_volume : Cell
  dollar_cumsum : Cell
  dollar_buy_cumsum : Cell
  dollar_sell_cumsum : Cell
deriving DecidableEq

/-- Errors surfaced by the utility: Python exceptions (ValueError from the
constructor validation, NameError from an undefined variable, AttributeError
from a missing method, KeyError from a dtype mapping naming a missing
column), and storage-engine errors (undefined table, duplicate object on
CREATE TYPE, and the pandas to_sql failure on an existing table). -/
inductive DBError where
  | configError (param : String)
  | nameError (name : String)
  | attributeError (name : String)
  | keyError (name : String)
  | undefinedTable (name : String)
  | duplicateObject (name : String)
  | valueError (name : String)
deriving DecidableEq

/-- The modeled state of the database: trade tables, bar tables (dollar-bars
and time-bars live in one catalog; their derived names never coincide across
families because of the distinct fixed name suffixes), and the names of the
database-level types that exist. -/
structure DB where
  tradeTables : List (String × List TradeRow)
  barTables : List (String × List BarRow)
  typeNames : List String
deriving DecidableEq

/-- The empty database: no tables, no types. -/
def emptyDB : DB := { tradeTables := [], barTables := [], typeNames := [] }

/-- Replace the binding of a table name, or add it if absent (the state
change of a CREATE or to_sql call). -/
def setTable {α : Type} : List (String × α) → String → α → List (String × α)
  | [], name, v => [(name, v)]
  | (m, w) :: rest, name, v =>
      if m == name then (name, v) :: rest else (m, w) :: setTable rest name v

/-- Insert one element into a list sorted by the Bool comparator le, where
le a b means a precedes or equals b in output order. -/
def insertBy {α : Type} (le : α → α → Bool) (a : α) : List α → List α
  | [] => [a]
  | b :: bs => if le a b then a :: b :: bs else b :: insertBy le a bs

/-- Insertion sort by a Bool comparator: the model of SQL ORDER BY. -/
def sortBy {α : Type} (le : α → α → Bool) : List α → List α
  | [] => []
  | a :: as => insertBy le a (sortBy le as)

/-- ASCII lower-casing of one character: the behavior of the Python str.lower
method on the ASCII identifier characters used in table names. -/
def lowerChar (c : Char) : Char :=
  if c.isUpper then Char.ofNat (c.toNat + 32) else c

/-- ASCII lower-casing of a string, the model of Python str.lower for the
identifier strings this module builds. -/
def lowerString (s : String) : String := ⟨s.data.map lowerChar⟩

/-- Embeds get_trade_table_name (lines 103-104). -/
def get_trade_table_name (exchange symbol : String) : String :=
  lowerString (exchange ++ "_" ++ symbol ++ "_trade")

/-- Embeds get_dollarbar_table_name (lines 167-168).  The interval argument
is taken already formatted as a string, as the f-string renders it. -/
def get_dollarbar_table_name (exchange symbol interval : String) : String :=
  lowerString (exchange ++ "_" ++ symbol ++ "_dollarbar_" ++ interval)

/-- Embeds get_timebar_table_name (lines 222-223). -/
def get_timebar_table_name (exchange symbol interval : String) : String :=
  lowerString (exchange ++ "_" ++ symbol ++ "_timebar_" ++ interval)

/-- Embeds the connection-parameter validation of the constructor
(lines 22-32): each of the five parameters is checked against None in order
and a ValueError is raised for the first missing one, before the engine is
created.  The original Japanese messages are modeled by the parameter name. -/
def validate_connection_params (user password host port database : Option String) :
    Except DBError Unit :=
  if user = none then .error (.configError "user")
  else if password = none then .error (.configError "password")
  else if host = none then .error (.configError "host")
  else if port = none then .error (.configError "port")
  else if database = none then .error (.configError "database")
  else .ok ()

/-- Embeds TimeScaleDBUtil.__init__ (lines 22-40).  Validation of the five
connection parameters happens first; only afterwards is the engine created
and the enum_side bootstrap run: a pg_type catalog lookup, and a CREATE TYPE
when the lookup came back empty.  There is no exception handler around the
CREATE TYPE statement, so any failure of it propagates.  The flag
enumSidePresentAtCreate models the section-5 race window: it says whether a
concurrent initializer created the type between the catalog check and the
CREATE TYPE; when it did, the storage engine rejects the statement with a
duplicate-object error. -/
def init (user password host port database : Option String)
    (db : DB) (enumSidePresentAtCreate : Bool) : Except DBError DB :=
  match validate_connection_params user password host port database with
  | .error e => .error e
  | .ok _ =>
      if db.typeNames.contains "enum_side" then .ok db
      else if enumSidePresentAtCreate then .error (.duplicateObject "enum_side")
      else .ok { db with typeNames := "enum_side" :: db.typeNames }

/-- The conflict policy argument of pandas DataFrame.to_sql. -/
inductive IfExists where
  | fail
  | append
  | replace
deriving DecidableEq

/-- Embeds df_to_sql (lines 85-100) together with the semantics of the
pandas DataFrame.to_sql call it delegates to.  When the frame is empty or
the schema argument (the target table name) is unset, the function returns
immediately without touching the store.  Otherwise to_sql writes the whole
batch: with policy fail it raises a ValueError when the table already
exists, with append it adds the rows after the existing ones, with replace
it drops the old rows; a missing table is created and receives the batch
under every policy.  The result pairs the new catalog with the value
returned to the caller (None for the no-op, the row count for a write). -/
def df_to_sql {α : Type} (tables : List (String × List α)) (df : List α)
    (schema : Option String) (if_exists : IfExists) :
    Except DBError (List (String × List α) × Option Nat) :=
  match df, schema with
  | [], _ => .ok (tables, none)
  | _, none => .ok (tables, none)
  | rows, some name =>
      match tables.lookup name, if_exists with
      | some _, .fail => .error (.valueError name)
      | some old, .append => .ok (setTable tables name (old ++ rows), some rows.length)
      | some _, .replace => .ok (setTable tables name rows, some rows.length)
      | none, _ => .ok (setTable tables name rows, some rows.length)

/-- Embeds init_trade_table (lines 106-124).  When the table already exists
in the information_schema catalog and force is false, the function returns
with no statement executed.  Otherwise the table DDL batch of line 119 runs
(drop and recreate), after which line 122 formats the materialized-view DDL
from the undefined Python variable _table_mane (a typo for _table_name) and
raises NameError before the view statement can be issued; the raised
exception is modeled as the error result. -/
def init_trade_table (db : DB) (exchange symbol : String) (force : Bool) :
    Except DBError DB :=
  if (db.tradeTables.lookup (get_trade_table_name exchange symbol)).isSome && !force then
    .ok db
  else
    .error (.nameError "_table_mane")

/-- Embeds init_dollarbar_table (lines 170-183): no-op when the table exists
and force is false, otherwise drop and recreate the (now empty) table. -/
def init_dollarbar_table (db : DB) (exchange symbol interval : String) (force : Bool) :
    Except DBError DB :=
  if (db.barTables.lookup (get_dollarbar_table_name exchange symbol interval)).isSome
      && !force then
    .ok db
  else
    .ok { db with
          barTables := setTable db.barTables
            (get_dollarbar_table_name exchange symbol interval) [] }

/-- Embeds init_timebar_table (lines 225-238): no-op when the table exists
and force is false, otherwise drop and recreate the (now empty) table. -/
def init_timebar_table (db : DB) (exchange symbol interval : String) (force : Bool) :
    Except DBError DB :=
  if (db.barTables.lookup (get_timebar_table_name exchange symbol interval)).isSome
      && !force then
    .ok db
  else
    .ok { db with
          barTables := setTable db.barTables
            (get_timebar_table_name exchange symbol interval) [] }

/-- Comparator for ORDER BY datetime DESC on trade rows: r precedes s when
its datetime is at least that of s. -/
def tradeDatetimeDescBefore (r s : TradeRow) : Bool := decide (s.datetime ≤ r.datetime)

/-- Comparator for ORDER BY dollar_cumsum DESC on trade rows. -/
def tradeCumsumDescBefore (r s : TradeRow) : Bool :=
  decide (s.dollar_cumsum ≤ r.dollar_cumsum)

/-- Comparator for ORDER BY datetime DESC on bar rows. -/
def barDatetimeDescBefore (r s : BarRow) : Bool := decide (s.datetime ≤ r.datetime)

/-- Comparator for ORDER BY dollar_cumsum DESC on bar rows. -/
def barCumsumDescBefore (r s : BarRow) : Bool :=
  decide (s.dollar_cumsum ≤ r.dollar_cumsum)

/-- Comparator for ORDER BY dollar_cumsum ASC on bar rows. -/
def barCumsumAscBefore (r s : BarRow) : Bool :=
  decide (r.dollar_cumsum ≤ s.dollar_cumsum)

/-- Output precedence of nullable text ids under ORDER BY id DESC: the
engine places NULL first for a descending key, then larger strings. -/
def optStrDescBefore : Option String → Option String → Bool
  | none, _ => true
  | some _, none => false
  | some a, some b => decide (b ≤ a)

/-- Comparator for ORDER BY datetime DESC, id DESC on bar rows (the single
row query of get_latest_dollarbar at line 192 and get_latest_timebar at
line 247). -/
def barLatestBefore (r s : BarRow) : Bool :=
  if r.datetime = s.datetime then optStrDescBefore r.id s.id
  else decide (s.datetime < r.datetime)

/-- Embeds the SQL of line 133: restrict to the 1000 most recent rows by
datetime descending, then take the top row by dollar_cumsum descending. -/
def latest_trade_query (rows : List TradeRow) : Option TradeRow :=
  (sortBy tradeCumsumDescBefore ((sortBy tradeDatetimeDescBefore rows).take 1000)).head?

/-- The fetch step of get_latest_trade: the dtype mapping at line 133 lists
all six decimal columns with dtype str, so each arrives as a text cell. -/
def fetch_trade_latest_dtype (r : TradeRow) : TradeRecord :=
  { datetime := r.datetime, id := r.id, side := r.side, liquidation := r.liquidation,
    price := .str r.price, volume := .str r.volume,
    dollar_volume := .str r.dollar_volume, dollar_cumsum := .str r.dollar_cumsum,
    dollar_buy_cumsum := .str r.dollar_buy_cumsum,
    dollar_sell_cumsum := .str r.dollar_sell_cumsum }

/-- The decode step of get_latest_trade (lines 136-141): lines 137 and 138
both convert the volume column, so dollar_volume is never decoded and stays
the fetched string cell; the other five columns become Decimal. -/
def decode_latest_trade (r : TradeRecord) : TradeRecord :=
  { r with
    price := toDecimal r.price,
    volume := toDecimal (toDecimal r.volume),
    dollar_cumsum := toDecimal r.dollar_cumsum,
    dollar_buy_cumsum := toDecimal r.dollar_buy_cumsum,
    dollar_sell_cumsum := toDecimal r.dollar_sell_cumsum }

/-- Embeds get_latest_trade (lines 126-144): absent table gives None; else
the two-stage query selects at most one row, which is fetched with the str
dtype mapping and decoded. -/
def get_latest_trade (db : DB) (exchange symbol : String) :
    Except DBError (Option TradeRecord) :=
  match db.tradeTables.lookup (get_trade_table_name exchange symbol) with
  | none => .ok none
  | some rows =>
      .ok ((latest_trade_query rows).map
        (fun r => decode_latest_trade (fetch_trade_latest_dtype r)))

/-- Embeds get_first_trade (lines 146-164).  The dtype mapping at line 153
names a column dollar that does not exist in the result set (a typo for
dollar_volume); pandas read_sql_query applies DataFrame.astype to the dtype
mapping, and astype raises KeyError for a key that is not a result column,
so the call raises whenever the table exists — the result frame always
carries the full column set, even with zero rows. -/
def get_first_trade (db : DB) (exchange symbol : String) :
    Except DBError (Option TradeRecord) :=
  match db.tradeTables.lookup (get_trade_table_name exchange symbol) with
  | none => .ok none
  | some _ => .error (.keyError "dollar")

/-- The fetch step of get_latest_dollarbar and get_latest_timebar: the dtype
mappings at lines 192 and 247 list eleven decimal columns with dtype str;
the remaining three decimal columns — dollar_liquidation_volume,
dollar_buy_cumsum and dollar_sell_cumsum — arrive through the default
numeric transport. -/
def fetch_bar_latest_dtype (r : BarRow) : BarRecord :=
  { datetime := r.datetime, datetime_from := r.datetime_from,
    id := r.id, id_from := r.id_from,
    open_ := .str r.open_, high := .str r.high, low := .str r.low,
    close := .str r.close, volume := .str r.volume,
    dollar_volume := .str r.dollar_volume,
    dollar_buy_volume := .str r.dollar_buy_volume,
    dollar_sell_volume := .str r.dollar_sell_volume,
    dollar_liquidation_volume := .rawNum r.dollar_liquidation_volume,
    dollar_liquidation_buy_volume := .str r.dollar_liquidation_buy_volume,
    dollar_liquidation_sell_volume := .str r.dollar_liquidation_sell_volume,
    dollar_cumsum := .str r.dollar_cumsum,
    dollar_buy_cumsum := .rawNum r.dollar_buy_cumsum,
    dollar_sell_cumsum := .rawNum r.dollar_sell_cumsum }

/-- The decode step of get_latest_timebar (lines 250-263): Decimal is
applied to all fourteen decimal columns. -/
def decode_latest_timebar (r : BarRecord) : BarRecord :=
  { r with
    open_ := toDecimal r.open_, high := toDecimal r.high, low := toDecimal r.low,
    close := toDecimal r.close, volume := toDecimal r.volume,
    dollar_volume := toDecimal r.dollar_volume,
    dollar_buy_volume := toDecimal r.dollar_buy_volume,
    dollar_sell_volume := toDecimal r.dollar_sell_volume,
    dollar_liquidation_volume := toDecimal r.dollar_liquidation_volume,
    dollar_liquidation_buy_volume := toDecimal r.dollar_liquidation_buy_volume,
    dollar_liquidation_sell_volume := toDecimal r.dollar_liquidation_sell_volume,
    dollar_cumsum := toDecimal r.dollar_cumsum,
    dollar_buy_cumsum := toDecimal r.dollar_buy_cumsum,
    dollar_sell_cumsum := toDecimal r.dollar_sell_cumsum }

/-- Embeds get_latest_dollarbar (lines 185-211): absent table gives None and
an empty table gives None; when the single-row query (ORDER BY datetime
DESC, id DESC LIMIT 1) yields a row, the decode loop runs lines 195-206 and
then line 207 invokes the nonexistent pandas Series method appselly on the
dollar_buy_cumsum column, raising AttributeError before any record is
returned. -/
def get_latest_dollarbar (db : DB) (exchange symbol interval : String) :
    Except DBError (Option BarRecord) :=
  match db.barTables.lookup (get_dollarbar_table_name exchange symbol interval) with
  | none => .ok none
  | some rows =>
      match (sortBy barLatestBefore rows).head? with
      | none => .ok none
      | some _ => .error (.attributeError "appselly")

/-- Embeds get_latest_timebar (lines 240-266): absent table gives None; else
the single-row query ORDER BY datetime DESC, id DESC LIMIT 1 selects the top
row, which is fetched with the eleven-column str dtype mapping and decoded. -/
def get_latest_timebar (db : DB) (exchange symbol interval : String) :
    Except DBError (Option BarRecord) :=
  match db.barTables.lookup (get_timebar_table_name exchange symbol interval) with
  | none => .ok none
  | some rows =>
      .ok ((sortBy barLatestBefore rows).head?.map
        (fun r => decode_latest_timebar (fetch_bar_latest_dtype r)))

/-- The projection returned by load_dollarbars and load_timebars
(lines 218 and 273): thirteen columns, excluding id, id_from, datetime_from,
volume and dollar_liquidation_volume.  These loads pass no dtype mapping, so
the decimal values arrive through the default transport; the claims about
the loads concern emptiness and errors only, so the projection keeps the
exact values. -/
structure BarProjection where
  datetime : Int
  open_ : Dec
  high : Dec
  low : Dec
  close : Dec
  dollar_volume : Dec
  dollar_buy_volume : Dec
  dollar_sell_volume : Dec
  dollar_liquidation_buy_volume : Dec
  dollar_liquidation_sell_volume : Dec
  dollar_cumsum : Dec
  dollar_buy_cumsum : Dec
  dollar_sell_cumsum : Dec
deriving DecidableEq

/-- Project a stored bar row to the published thirteen-column subset. -/
def projectBar (r : BarRow) : BarProjection :=
  { datetime := r.datetime, open_ := r.open_, high := r.high, low := r.low,
    close := r.close, dollar_volume := r.dollar_volume,
    dollar_buy_volume := r.dollar_buy_volume,
    dollar_sell_volume := r.dollar_sell_volume,
    dollar_liquidation_buy_volume := r.dollar_liquidation_buy_volume,
    dollar_liquidation_sell_volume := r.dollar_liquidation_sell_volume,
    dollar_cumsum := r.dollar_cumsum, dollar_buy_cumsum := r.dollar_buy_cumsum,
    dollar_sell_cumsum := r.dollar_sell_cumsum }

/-- The range query of the loads (lines 215 and 270): rows with datetime in
the half-open interval, ordered by dollar_cumsum ascending, projected.  The
string bounds of the source are timestamp literals modeled as integers. -/
def load_range_query (rows : List BarRow) (fromT toT : Int) : List BarProjection :=
  (sortBy barCumsumAscBefore
    (rows.filter (fun r => decide (fromT ≤ r.datetime) && decide (r.datetime < toT)))).map
    projectBar

/-- Embeds load_dollarbars (lines 213-219).  Unlike the latest and first
readers, the loads perform no information_schema existence check: the SELECT
is issued directly, so an absent table surfaces the undefined-table error of
the storage engine. -/
def load_dollarbars (db : DB) (exchange symbol interval : String) (fromT toT : Int) :
    Except DBError (List BarProjection) :=
  match db.barTables.lookup (get_dollarbar_table_name exchange symbol interval) with
  | none => .error (.undefinedTable (get_dollarbar_table_name exchange symbol interval))
  | some rows => .ok (load_range_query rows fromT toT)

/-- Embeds load_timebars (lines 268-274), identical to load_dollarbars up to
the table-name family: no existence check, then the range query. -/
def load_timebars (db : DB) (exchange symbol interval : String) (fromT toT : Int) :
    Except DBError (List BarProjection) :=
  match db.barTables.lookup (get_timebar_table_name exchange symbol interval) with
  | none => .error (.undefinedTable (get_timebar_table_name exchange symbol interval))
  | some rows => .ok (load_range_query rows fromT toT)

/-- Modelled from the spec: the two-stage latest selection of section 4.5
for bar rows — restrict to the 1000 most recent rows by datetime descending,
then take the single row with maximum dollar_cumsum. -/
def spec_latest_two_stage_bar (rows : List BarRow) : Option BarRow :=
  (sortBy barCumsumDescBefore ((sortBy barDatetimeDescBefore rows).take 1000)).head?

/-- Modelled from the spec: the two-stage latest selection of section 4.5
for trade rows. -/
def spec_latest_two_stage_trade (rows : List TradeRow) : Option TradeRow :=
  (sortBy tradeCumsumDescBefore ((sortBy tradeDatetimeDescBefore rows).take 1000)).head?

/-! Concrete databases and rows used to evaluate the operations. -/

/-- A single stored trade row. -/
def oneTradeRow : TradeRow :=
  { datetime := 1, id := some "t1", side := .buy, liquidation := false,
    price := 7, volume := 2, dollar_volume := 14, dollar_cumsum := 14,
    dollar_buy_cumsum := 14, dollar_sell_cumsum := 0 }

/-- A database holding one trade table with one row. -/
def oneTradeDB : DB :=
  { tradeTables := [("ftx_btc-perp_trade", [oneTradeRow])], barTables := [],
    typeNames := ["enum_side"] }

/-- The record get_latest_trade returns for oneTradeRow: five columns are
decoded from text, while dollar_volume stays the fetched string cell. -/
def undecodedTradeRecord : TradeRecord :=
  { datetime := 1, id := some "t1", side := .buy, liquidation := false,
    price := .dec .text 7, volume := .dec .text 2, dollar_volume := .str 14,
    dollar_cumsum := .dec .text 14, dollar_buy_cumsum := .dec .text 14,
    dollar_sell_cumsum := .dec .text 0 }

/-- An early bar row carrying the larger cumulative sum. -/
def barEarly : BarRow :=
  { datetime := 1, datetime_from := 0, id := some "a", id_from := some "a0",
    open_ := 1, high := 2, low := 1, close := 2, volume := 3, dollar_volume := 5,
    dollar_buy_volume := 5, dollar_sell_volume := 0, dollar_liquidation_volume := 0,
    dollar_liquidation_buy_volume := 0, dollar_liquidation_sell_volume := 0,
    dollar_cumsum := 100, dollar_buy_cumsum := 60, dollar_sell_cumsum := 40 }

/-- A later bar row carrying a smaller cumulative sum, as can happen under
concurrent writers. -/
def barLate : BarRow :=
  { barEarly with
    datetime := 2, datetime_from := 1, id := some "b", id_from := some "a",
    dollar_cumsum := 50 }

/-- A time-bar table where the most recent row does not carry the maximum
cumulative sum. -/
def raceTimebarDB : DB :=
  { tradeTables := [],
    barTables := [("ftx_btc-perp_timebar_1h", [barEarly, barLate])],
    typeNames := ["enum_side"] }

/-- A database holding one non-empty dollar-bar table. -/
def nonemptyDollarbarDB : DB :=
  { tradeTables := [],
    barTables := [("ftx_btc-perp_dollarbar_5000000", [barEarly])],
    typeNames := ["enum_side"] }

/-- A database in which all three table families exist for one identity. -/
def threeTablesDB : DB :=
  { tradeTables := [("binance_eth/usdt_trade", [oneTradeRow])],
    barTables := [("binance_eth/usdt_dollarbar_100", []),
                  ("binance_eth/usdt_timebar_1h", [])],
    typeNames := ["enum_side"] }

/-- A database with a trade table and a time-bar table, no dollar-bar table. -/
def latestWitnessDB : DB :=
  { tradeTables := [("okx_btc-usdt_trade", [oneTradeRow])],
    barTables := [("okx_btc-usdt_timebar_1h", [barEarly, barLate])],
    typeNames := ["enum_side"] }

/-- A database with one dollar-bar table and one time-bar table, each with a
single row at datetime 1. -/
def loadWitnessDB : DB :=
  { tradeTables := [],
    barTables := [("ex1_sym1_dollarbar_100", [barEarly]),
                  ("ex1_sym1_timebar_1h", [barEarly])],
    typeNames := ["enum_side"] }

/-! Helper lemmas about the insertion sort. -/

/-- Inserting into a list never yields the empty list. -/
theorem insertBy_ne_nil {α : Type} (le : α → α → Bool) (a : α) (l : List α) :
    insertBy le a l ≠ [] := by
  cases l with
  | nil => simp [insertBy]
  | cons b bs =>
      simp only [insertBy]
      split <;> simp

/-- Sorting a non-empty list yields a non-empty list. -/
theorem sortBy_ne_nil {α : Type} (le : α → α → Bool) (l : List α) (h : l ≠ []) :
    sortBy le l ≠ [] := by
  cases l with
  | nil => exact absurd rfl h
  | cons a as => simpa [sortBy] using insertBy_ne_nil le a (sortBy le as)

/-! Claim theorems. -/

/-- Claim C10: for all exchange, symbol and interval inputs the naming
functions are pure and return the lower-cased underscore-delimited
concatenations of their arguments with the fixed family suffix. -/
theorem table_names_are_lowercased_concatenations (exchange symbol interval : String) :
    get_trade_table_name exchange symbol
        = lowerString (exchange ++ "_" ++ symbol ++ "_trade") ∧
    get_dollarbar_table_name exchange symbol interval
        = lowerString (exchange ++ "_" ++ symbol ++ "_dollarbar_" ++ interval) ∧
    get_timebar_table_name exchange symbol interval
        = lowerString (exchange ++ "_" ++ symbol ++ "_timebar_" ++ interval) :=
  ⟨rfl, rfl, rfl⟩

/-- Claim C4: the claim states that whenever init_trade_table proceeds to
recreate the trade table it also creates the companion daily materialized
view and the call completes without raising.  Evaluating the code on a fresh
database shows the call instead raises NameError on the undefined Python
variable _table_mane while formatting the view DDL, so the view is never
created and the call never completes. -/
theorem init_trade_table_raises_name_error :
    init_trade_table emptyDB "binance" "BTC/USDT" false
      = .error (.nameError "_table_mane") := rfl

/-- Claim C1: counterexample — load_dollarbars against a never-created
table does not return an empty sequence: the SELECT is issued with no
existence check and the undefined-table storage error propagates. -/
theorem load_dollarbars_absent_table_raises :
    load_dollarbars emptyDB "ftx" "BTC-PERP" "5000000" 0 10
      = .error (.undefinedTable "ftx_btc-perp_dollarbar_5000000") := rfl

/-- Claim C1 (amended): for both bar kinds, a range over an existing table
that contains no row in the bounds yields the empty sequence without error;
a range load against an absent table raises the undefined-table storage
error, because the loads issue the SELECT without an existence check. -/
theorem load_range_empty_or_absent (db : DB) (ex sym iv : String) (a b : Int) :
    (∀ rows, db.barTables.lookup (get_dollarbar_table_name ex sym iv) = some rows →
        rows.filter (fun r => decide (a ≤ r.datetime) && decide (r.datetime < b)) = [] →
        load_dollarbars db ex sym iv a b = .ok []) ∧
    (∀ rows, db.barTables.lookup (get_timebar_table_name ex sym iv) = some rows →
        rows.filter (fun r => decide (a ≤ r.datetime) && decide (r.datetime < b)) = [] →
        load_timebars db ex sym iv a b = .ok []) ∧
    (db.barTables.lookup (get_dollarbar_table_name ex sym iv) = none →
        load_dollarbars db ex sym iv a b
          = .error (.undefinedTable (get_dollarbar_table_name ex sym iv))) ∧
    (db.barTables.lookup (get_timebar_table_name ex sym iv) = none →
        load_timebars db ex sym iv a b
          = .error (.undefinedTable (get_timebar_table_name ex sym iv))) := by
  refine ⟨?_, ?_, ?_, ?_⟩
  · intro rows hl hf
    simp [load_dollarbars, hl, load_range_query, hf, sortBy]
  · intro rows hl hf
    simp [load_timebars, hl, load_range_query, hf, sortBy]
  · intro hl
    simp [load_dollarbars, hl]
  · intro hl
    simp [load_timebars, hl]

/-- Claim C1 witness: the amended statement evaluated on a database holding
one dollar-bar table and one time-bar table, with an empty range over each,
and on a time-bar identity whose table is absent. -/
theorem load_range_empty_or_absent_witness :
    load_dollarbars loadWitnessDB "ex1" "sym1" "100" 5 9 = .ok [] ∧
    load_timebars loadWitnessDB "ex1" "sym1" "1h" 5 9 = .ok [] ∧
    load_timebars loadWitnessDB "ex2" "sym1" "1h" 5 9
      = .error (.undefinedTable "ex2_sym1_timebar_1h") := by
  refine ⟨?_, ?_, ?_⟩
  · exact (load_range_empty_or_absent loadWitnessDB "ex1" "sym1" "100" 5 9).1
      [barEarly] rfl rfl
  · exact (load_range_empty_or_absent loadWitnessDB "ex1" "sym1" "1h" 5 9).2.1
      [barEarly] rfl rfl
  · exact (load_range_empty_or_absent loadWitnessDB "ex2" "sym1" "1h" 5 9).2.2.2 rfl

/-- Claim C2: the claim states that on every single-record read path every
decimal column is transported as text and decoded to an exact Decimal before
being returned.  Evaluating get_latest_trade on a one-row table shows the
returned record still carries dollar_volume as the raw fetched text cell,
never decoded — line 138 of the source converts the volume column a second
time instead of dollar_volume — and a raw text cell differs from the decoded
cell, refuting the claim on this read path. -/
theorem get_latest_trade_leaves_dollar_volume_undecoded :
    get_latest_trade oneTradeDB "ftx" "BTC-PERP" = .ok (some undecodedTradeRecord) ∧
    undecodedTradeRecord.dollar_volume = Cell.str 14 ∧
    Cell.str 14 ≠ Cell.dec .text 14 :=
  ⟨rfl, rfl, by decide⟩

/-- Claim C3: counterexample — on a two-row time-bar table where the most
recent row does not carry the maximum dollar_cumsum, the two-stage selection
the claim describes picks the early row with cumsum 100, while
get_latest_timebar returns the decoded later row with cumsum 50: the code
orders by (datetime, id) descending and takes one row, with no
cumulative-volume stage. -/
theorem get_latest_timebar_ignores_two_stage :
    spec_latest_two_stage_bar [barEarly, barLate] = some barEarly ∧
    get_latest_timebar raceTimebarDB "ftx" "BTC-PERP" "1h"
      = .ok (some (decode_latest_timebar (fetch_bar_latest_dtype barLate))) ∧
    decode_latest_timebar (fetch_bar_latest_dtype barLate)
      ≠ decode_latest_timebar (fetch_bar_latest_dtype barEarly) :=
  ⟨rfl, rfl, by decide⟩

/-- Claim C3 (amended): every latest reader returns absent for an absent
table; the trade reader follows the two-stage recent-window-then-max-cumsum
selection; the dollar-bar and time-bar readers instead issue a single query
ordered by (datetime, id) descending and take its top row — the time-bar
reader returns that row decoded, while the dollar-bar reader returns absent
on an empty table and raises the appselly AttributeError on a non-empty
one. -/
theorem latest_selection_by_kind (db : DB) (ex sym iv : String) :
    (db.tradeTables.lookup (get_trade_table_name ex sym) = none →
        get_latest_trade db ex sym = .ok none) ∧
    (db.barTables.lookup (get_dollarbar_table_name ex sym iv) = none →
        get_latest_dollarbar db ex sym iv = .ok none) ∧
    (db.barTables.lookup (get_timebar_table_name ex sym iv) = none →
        get_latest_timebar db ex sym iv = .ok none) ∧
    (∀ rows, db.tradeTables.lookup (get_trade_table_name ex sym) = some rows →
        get_latest_trade db ex sym
          = .ok ((spec_latest_two_stage_trade rows).map
              (fun r => decode_latest_trade (fetch_trade_latest_dtype r)))) ∧
    (∀ rows, db.barTables.lookup (get_timebar_table_name ex sym iv) = some rows →
        get_latest_timebar db ex sym iv
          = .ok ((sortBy barLatestBefore rows).head?.map
              (fun r => decode_latest_timebar (fetch_bar_latest_dtype r)))) ∧
    (∀ rows, db.barTables.lookup (get_dollarbar_table_name ex sym iv) = some rows →
        rows ≠ [] →
        get_latest_dollarbar db ex sym iv = .error (.attributeError "appselly")) := by
  refine ⟨?_, ?_, ?_, ?_, ?_, ?_⟩
  · intro hl
    simp [get_latest_trade, hl]
  · intro hl
    simp [get_latest_dollarbar, hl]
  · intro hl
    simp [get_latest_timebar, hl]
  · intro rows hl
    simp [get_latest_trade, hl, latest_trade_query, spec_latest_two_stage_trade]
  · intro rows hl
    simp [get_latest_timebar, hl]
  · intro rows hl hne
    obtain ⟨x, xs, hx⟩ :=
      List.exists_cons_of_ne_nil (sortBy_ne_nil barLatestBefore rows hne)
    simp [get_latest_dollarbar, hl, hx]

/-- Claim C3 witness: the amended statement evaluated on a database with a
populated trade table and time-bar table and no dollar-bar table. -/
theorem latest_selection_by_kind_witness :
    get_latest_trade latestWitnessDB "okx" "BTC-USDT"
      = .ok ((spec_latest_two_stage_trade [oneTradeRow]).map
          (fun r => decode_latest_trade (fetch_trade_latest_dtype r))) ∧
    get_latest_timebar latestWitnessDB "okx" "BTC-USDT" "1h"
      = .ok ((sortBy barLatestBefore [barEarly, barLate]).head?.map
          (fun r => decode_latest_timebar (fetch_bar_latest_dtype r))) ∧
    get_latest_dollarbar latestWitnessDB "okx" "BTC-USDT" "100" = .ok none := by
  refine ⟨?_, ?_, ?_⟩
  · exact (latest_selection_by_kind latestWitnessDB "okx" "BTC-USDT" "1h").2.2.2.1
      [oneTradeRow] rfl
  · exact (latest_selection_by_kind latestWitnessDB "okx" "BTC-USDT" "1h").2.2.2.2.1
      [barEarly, barLate] rfl
  · exact (latest_selection_by_kind latestWitnessDB "okx" "BTC-USDT" "100").2.1 rfl

/-- Claim C5: for every dollar-bar table that exists and holds at least one
row, get_latest_dollarbar raises the AttributeError coming from the
nonexistent method name appselly during result decoding, and therefore never
returns a record; an absent result arises only from the table-missing or
zero-row branches. -/
theorem get_latest_dollarbar_raises_on_nonempty (db : DB) (ex sym iv : String) :
    (∀ rows, db.barTables.lookup (get_dollarbar_table_name ex sym iv) = some rows →
        rows ≠ [] →
        get_latest_dollarbar db ex sym iv = .error (.attributeError "appselly")) ∧
    (∀ r, get_latest_dollarbar db ex sym iv ≠ .ok (some r)) ∧
    (get_latest_dollarbar db ex sym iv = .ok none →
        db.barTables.lookup (get_dollarbar_table_name ex sym iv) = none ∨
        db.barTables.lookup (get_dollarbar_table_name ex sym iv) = some []) := by
  refine ⟨?_, ?_, ?_⟩
  · intro rows hl hne
    obtain ⟨x, xs, hx⟩ :=
      List.exists_cons_of_ne_nil (sortBy_ne_nil barLatestBefore rows hne)
    simp [get_latest_dollarbar, hl, hx]
  · intro r
    cases hl : db.barTables.lookup (get_dollarbar_table_name ex sym iv) with
    | none => simp [get_latest_dollarbar, hl]
    | some rows =>
        cases hx : (sortBy barLatestBefore rows).head? with
        | none => simp [get_latest_dollarbar, hl, hx]
        | some x => simp [get_latest_dollarbar, hl, hx]
  · intro h
    cases hl : db.barTables.lookup (get_dollarbar_table_name ex sym iv) with
    | none => exact Or.inl rfl
    | some rows =>
        refine Or.inr ?_
        cases rows with
        | nil => rfl
        | cons a as =>
            exfalso
            obtain ⟨x, xs, hx⟩ :=
              List.exists_cons_of_ne_nil
                (sortBy_ne_nil barLatestBefore (a :: as) (by simp))
            simp [get_latest_dollarbar, hl, hx] at h

/-- Claim C5 witness: the statement evaluated on a database whose dollar-bar
table holds one row. -/
theorem get_latest_dollarbar_raises_on_nonempty_witness :
    get_latest_dollarbar nonemptyDollarbarDB "ftx" "BTC-PERP" "5000000"
      = .error (.attributeError "appselly") :=
  (get_latest_dollarbar_raises_on_nonempty nonemptyDollarbarDB "ftx" "BTC-PERP"
    "5000000").1 [barEarly] rfl (by decide)

/-- Claim C6: calling any of the three init functions with force false when
the physical table already exists in the catalog returns without executing
any DDL: the database value is returned unchanged, so schema, row count and
all previously stored rows are untouched, for every identity and prior
content. -/
theorem init_tables_noop_when_exists (db : DB) (ex sym iv : String) :
    ((db.tradeTables.lookup (get_trade_table_name ex sym)).isSome →
        init_trade_table db ex sym false = .ok db) ∧
    ((db.barTables.lookup (get_dollarbar_table_name ex sym iv)).isSome →
        init_dollarbar_table db ex sym iv false = .ok db) ∧
    ((db.barTables.lookup (get_timebar_table_name ex sym iv)).isSome →
        init_timebar_table db ex sym iv false = .ok db) := by
  refine ⟨?_, ?_, ?_⟩
  · intro h
    simp [init_trade_table, h]
  · intro h
    simp [init_dollarbar_table, h]
  · intro h
    simp [init_timebar_table, h]

/-- Claim C6 witness: the statement evaluated on a database where all three
tables exist for one identity, with one stored trade row. -/
theorem init_tables_noop_when_exists_witness :
    init_trade_table threeTablesDB "binance" "ETH/USDT" false = .ok threeTablesDB ∧
    init_dollarbar_table threeTablesDB "binance" "ETH/USDT" "100" false
      = .ok threeTablesDB ∧
    init_timebar_table threeTablesDB "binance" "ETH/USDT" "1h" false
      = .ok threeTablesDB := by
  refine ⟨?_, ?_, ?_⟩
  · exact (init_tables_noop_when_exists threeTablesDB "binance" "ETH/USDT" "100").1
      (by decide)
  · exact (init_tables_noop_when_exists threeTablesDB "binance" "ETH/USDT" "100").2.1
      (by decide)
  · exact (init_tables_noop_when_exists threeTablesDB "binance" "ETH/USDT" "1h").2.2
      (by decide)

/-- Claim C7: counterexample — with enum_side absent at the catalog check
but created concurrently before the CREATE TYPE statement executes, the
constructor does not catch the duplicate-object failure: the error surfaces
to the caller instead of being ignored. -/
theorem init_race_error_surfaces :
    init (some "u") (some "pw") (some "h") (some "5432") (some "db") emptyDB true
      = .error (.duplicateObject "enum_side") := rfl

/-- Claim C7 (amended): the constructor issues the check-then-create with no
exception handler, so when the type is created concurrently between the
check and the create, the duplicate-object error propagates unmodified to
the caller; only when the catalog check already sees the type is the
creation skipped and no error possible. -/
theorem init_race_error_propagates (user password host port database : String)
    (db : DB) :
    (db.typeNames.contains "enum_side" = false →
        init (some user) (some password) (some host) (some port) (some database) db true
          = .error (.duplicateObject "enum_side")) ∧
    (db.typeNames.contains "enum_side" = true →
        ∀ race : Bool,
          init (some user) (some password) (some host) (some port) (some database) db race
            = .ok db) := by
  constructor
  · intro h
    have hm : "enum_side" ∉ db.typeNames := by simpa using h
    simp [init, validate_connection_params, hm]
  · intro h race
    have hm : "enum_side" ∈ db.typeNames := by simpa using h
    simp [init, validate_connection_params, hm]

/-- Claim C7 witness: the amended statement evaluated on the empty database,
where the racing creator wins. -/
theorem init_race_error_propagates_witness :
    init (some "u2") (some "pw") (some "h") (some "5433") (some "db") emptyDB true
      = .error (.duplicateObject "enum_side") :=
  (init_race_error_propagates "u2" "pw" "h" "5433" "db" emptyDB).1 rfl

/-- Claim C8: constructing the utility with any of the five connection
parameters unset fails with a configuration error that is exactly the result
of the parameter-validation stage, which runs before the engine is created
and before any storage statement; when all five are provided the constructor
never fails with a configuration error. -/
theorem init_validates_params_first (user password host port database : Option String)
    (db : DB) (race : Bool) :
    ((user = none ∨ password = none ∨ host = none ∨ port = none ∨ database = none) →
        ∃ p, init user password host port database db race = .error (.configError p) ∧
          validate_connection_params user password host port database
            = .error (.configError p)) ∧
    (user ≠ none → password ≠ none → host ≠ none → port ≠ none → database ≠ none →
        ∀ p, init user password host port database db race ≠ .error (.configError p)) := by
  constructor
  · intro h
    by_cases hu : user = none
    · exact ⟨"user", by simp [init, validate_connection_params, hu]⟩
    by_cases hp : password = none
    · exact ⟨"password", by simp [init, validate_connection_params, hu, hp]⟩
    by_cases hh : host = none
    · exact ⟨"host", by simp [init, validate_connection_params, hu, hp, hh]⟩
    by_cases hq : port = none
    · exact ⟨"port", by simp [init, validate_connection_params, hu, hp, hh, hq]⟩
    by_cases hd : database = none
    · exact ⟨"database", by simp [init, validate_connection_params, hu, hp, hh, hq, hd]⟩
    rcases h with h | h | h | h | h <;> contradiction
  · intro h1 h2 h3 h4 h5 p
    simp only [init, validate_connection_params, if_neg h1, if_neg h2, if_neg h3,
      if_neg h4, if_neg h5]
    by_cases hc : "enum_side" ∈ db.typeNames
    · simp [hc]
    · by_cases hr : race
      · simp [hc, hr]
      · simp [hc, hr]

/-- Claim C8 witness: the statement evaluated with the user parameter unset
and the rest provided. -/
theorem init_validates_params_first_witness :
    ((none : Option String) = none ∨ (some "pw" : Option String) = none ∨
      (some "h" : Option String) = none ∨ (some "5432" : Option String) = none ∨
      (some "db" : Option String) = none) ∧
    ∃ p, init none (some "pw") (some "h") (some "5432") (some "db") emptyDB false
          = .error (.configError p) ∧
      validate_connection_params none (some "pw") (some "h") (some "5432") (some "db")
          = .error (.configError p) :=
  ⟨Or.inl rfl,
    (init_validates_params_first none (some "pw") (some "h") (some "5432") (some "db")
      emptyDB false).1 (Or.inl rfl)⟩

/-- Claim C9: df_to_sql returns immediately as a no-op, writing no rows and
touching no table, whenever the supplied batch is empty or the target table
name is unset; otherwise the whole batch is written in one to_sql call under
the selected conflict policy — append adds the rows after the existing ones
(creating the table when missing), and fail on an existing table surfaces
the conflict as an error. -/
theorem df_to_sql_contract {α : Type} (tables : List (String × List α)) (df : List α)
    (schema : Option String) (pol : IfExists) (name : String) :
    (df = [] → df_to_sql tables df schema pol = .ok (tables, none)) ∧
    (schema = none → df_to_sql tables df schema pol = .ok (tables, none)) ∧
    (df ≠ [] →
        df_to_sql tables df (some name) .append
          = .ok (setTable tables name (((tables.lookup name).getD []) ++ df),
              some df.length)) ∧
    (df ≠ [] → (tables.lookup name).isSome →
        df_to_sql tables df (some name) .fail = .error (.valueError name)) := by
  refine ⟨?_, ?_, ?_, ?_⟩
  · intro h
    subst h
    cases schema <;> rfl
  · intro h
    subst h
    cases df <;> rfl
  · intro h
    cases df with
    | nil => exact absurd rfl h
    | cons x xs =>
        cases hl : tables.lookup name with
        | none => simp [df_to_sql, hl]
        | some old => simp [df_to_sql, hl]
  · intro h hs
    cases df with
    | nil => exact absurd rfl h
    | cons x xs =>
        obtain ⟨old, hl⟩ := Option.isSome_iff_exists.mp hs
        simp [df_to_sql, hl]

/-- Claim C9 witness: the statement evaluated on a catalog with one table of
two rows, with an empty batch, an appended batch and a failing policy. -/
theorem df_to_sql_contract_witness :
    df_to_sql [("t", [1, 2])] ([] : List Nat) (some "t") .append
      = .ok ([("t", [1, 2])], none) ∧
    df_to_sql [("t", [1, 2])] [3] (some "t") .append
      = .ok ([("t", [1, 2, 3])], some 1) ∧
    df_to_sql [("t", [1, 2])] [3] (some "t") .fail = .error (.valueError "t") := by
  refine ⟨?_, ?_, ?_⟩
  · exact (df_to_sql_contract [("t", [1, 2])] [] (some "t") .append "t").1 rfl
  · exact (df_to_sql_contract [("t", [1, 2])] [3] (some "t") .append "t").2.2.1
      (by decide)
  · exact (df_to_sql_contract [("t", [1, 2])] [3] (some "t") .fail "t").2.2.2
      (by decide) rfl

end TimeScaleDBUtil
